import Mathlib

/-!
Formal model of the rviz OdometryDisplay plugin
(src/src/default_plugin/odometry_display.cpp).

The display keeps an ordered buffer of arrow visuals (the deque
arrows_, head = oldest), the last accepted message (last_used_message_),
a color, a capacity (keep_), and position/angle tolerances.  Incoming
messages are filtered against the last accepted message, transformed
into the fixed frame, rendered as arrows, and the buffer is trimmed from
the front by update().

Scalars are modelled as rationals.  The C++ float comparisons of
Euclidean lengths against tolerances are decided exactly over the
rationals by comparing squared lengths (lemma lengthLt_iff below relates
this to the real square root, which is the idealized semantics of
Ogre's Vector3::length()).  External collaborators (the tf transform
service, the Euler-angle orientation conversion of transformArrow, and
robotToOgre from rviz/common.h, which is not part of this source file)
are parameters of the model, collected in the Externals structure.

Destruction of arrow visuals (delete in C++) is modelled by moving the
arrow into a ghost `destroyed` log, so that theorems can speak about
which visuals were destroyed and in which order.
-/

namespace RvizOdom

/-- A 3-d vector with rational coordinates (models Ogre::Vector3 /
btVector3 as used by the display). -/
structure Vec3 where
  x : ℚ
  y : ℚ
  z : ℚ
deriving DecidableEq

/-- A quaternion with rational coordinates (models Ogre::Quaternion,
components w, x, y, z). -/
structure Quat where
  w : ℚ
  x : ℚ
  y : ℚ
  z : ℚ
deriving DecidableEq

/-- An opaque RGB color (models rviz::Color with fields r_, g_, b_). -/
structure Color where
  r : ℚ
  g : ℚ
  b : ℚ
deriving DecidableEq

/-- An RGBA color as stored on an arrow visual
(ogre_tools::Arrow::setColor takes r, g, b, alpha). -/
structure ColorA where
  r : ℚ
  g : ℚ
  b : ℚ
  a : ℚ
deriving DecidableEq

/-- The fields of a nav_msgs::Odometry message that the display reads:
header.frame_id, header.stamp, pose.pose.position and
pose.pose.orientation. -/
structure Odometry where
  frame_id : String
  stamp : ℚ
  position : Vec3
  orientation : Quat
deriving DecidableEq

/-- A stamped pose as handed to the transform service
(tf::Stamped of tf::Pose: a frame, a stamp, and the pose). -/
structure TfPose where
  frame : String
  stamp : ℚ
  position : Vec3
  orientation : Quat
deriving DecidableEq

/-- The observable attributes of one ogre_tools::Arrow visual that the
display sets: position, orientation, color, and the user-data
back-reference of line 202 (modelled as a flag).  The fixed geometric
proportions (0.8, 0.05, 0.2, 0.2 of line 197) are compile-time constants
of the C++ constructor call and carry no per-arrow information. -/
structure Arrow where
  position : Vec3
  orientation : Quat
  color : ColorA
  userDataSet : Bool
deriving DecidableEq

/-- Componentwise difference of vectors (Ogre::Vector3 operator-). -/
def vsub (a b : Vec3) : Vec3 :=
  { x := a.x - b.x, y := a.y - b.y, z := a.z - b.z }

/-- Squared Euclidean length of a vector; Ogre::Vector3::length() is the
real square root of this. -/
def sqLen (v : Vec3) : ℚ :=
  v.x * v.x + v.y * v.y + v.z * v.z

/-- Componentwise difference of quaternions (Ogre::Quaternion
operator-). -/
def qsub (a b : Quat) : Quat :=
  { w := a.w - b.w, x := a.x - b.x, y := a.y - b.y, z := a.z - b.z }

/-- Ogre::Quaternion::Norm(): w*w + x*x + y*y + z*z, the SQUARED length
of the quaternion (this is the value Ogre::Quaternion::normalise()
returns; in the Ogre version this code builds against, normalise() is
`Real len = Norm(); *this = *this * (1.0f / Math::Sqrt(len)); return len;`
so the value compared against the angle tolerance on line 191 is the
squared componentwise difference, not its square root). -/
def qNorm (q : Quat) : ℚ :=
  q.w * q.w + q.x * q.x + q.y * q.y + q.z * q.z

/-- Decides `sqrt s < t` for a squared length `s` exactly over the
rationals: false when `t ≤ 0` (a square root is nonnegative), and
`s < t*t` otherwise.  Lemma lengthLt_iff proves this agrees with the
real-number comparison used by the C++ code. -/
def lengthLt (s t : ℚ) : Bool :=
  decide (0 < t) && decide (s < t * t)

/-- The discard condition of processMessage line 191:
(last_position - current_position).length() < position_tolerance_ &&
(last_orientation - current_orientation).normalise() < angle_tolerance_.
The position branch compares a true Euclidean length (Vector3::length),
the orientation branch compares the squared componentwise difference
(Quaternion::normalise returns Norm(), the squared length). -/
def filterDiscard (ptol atol : ℚ) (last cur : Odometry) : Bool :=
  lengthLt (sqLen (vsub last.position cur.position)) ptol &&
  decide (qNorm (qsub last.orientation cur.orientation) < atol)

/-- The external collaborators of the display.  `tf` models
tf::TransformListener::transformPose(target_frame, in, out): `none`
models a thrown tf::TransformException, `some p` the transformed pose.
`eulerOrient` models the orientation conversion of lines 230-234
(getEulerZYX followed by FromEulerAnglesZXY, external trigonometry).
`robotToOgre` is modelled from the spec: the position conversion from
the domain coordinate convention to the renderer convention lives in
rviz/common.h, which is not part of this source file; the spec only
says the position is converted, so it is an opaque function here. -/
structure Externals where
  tf : String → TfPose → Option TfPose
  eulerOrient : TfPose → Quat
  robotToOgre : Vec3 → Vec3

/-- The mutable state of the OdometryDisplay.  `arrows` is the deque
arrows_ with head = oldest (push_back appends at the tail);
`last_used_message` is last_used_message_; `subscribedTo` is the topic
sub_ is currently subscribed to, if any; `target_frame` is the target
frame of tf_filter_; `destroyed` is the ghost log of deleted arrow
visuals, in deletion order. -/
structure OdometryDisplay where
  arrows : List Arrow
  last_used_message : Option Odometry
  color : Color
  keep : Nat
  position_tolerance : ℚ
  angle_tolerance : ℚ
  topic : String
  fixed_frame : String
  target_frame : String
  subscribedTo : Option String
  enabled : Bool
  visible : Bool
  destroyed : List Arrow
deriving DecidableEq

/-- OdometryDisplay::clear (lines 69-85): deletes every arrow in the
buffer, empties the buffer, and resets last_used_message_.  (The
tf_filter_.clear() call touches only the external message filter.) -/
def clear (s : OdometryDisplay) : OdometryDisplay :=
  { s with
      arrows := []
      destroyed := s.destroyed ++ s.arrows
      last_used_message := none }

/-- OdometryDisplay::subscribe (lines 136-144): does nothing unless the
display is enabled; otherwise subscribes sub_ to the configured topic. -/
def subscribe (s : OdometryDisplay) : OdometryDisplay :=
  if s.enabled then { s with subscribedTo := some s.topic } else s

/-- OdometryDisplay::unsubscribe (lines 146-149). -/
def unsubscribe (s : OdometryDisplay) : OdometryDisplay :=
  { s with subscribedTo := none }

/-- OdometryDisplay::setTopic (lines 87-96): unsubscribe, store the
topic, resubscribe. -/
def setTopic (s : OdometryDisplay) (topic : String) : OdometryDisplay :=
  subscribe { unsubscribe s with topic := topic }

/-- OdometryDisplay::setColor (lines 98-113): stores the color and
re-colors every arrow currently in the buffer with alpha 1.0. -/
def setColor (s : OdometryDisplay) (c : Color) : OdometryDisplay :=
  { s with
      color := c
      arrows := s.arrows.map (fun arrow =>
        { arrow with color := { r := c.r, g := c.g, b := c.b, a := 1 } }) }

/-- OdometryDisplay::setKeep (lines 115-120): stores the capacity. -/
def setKeep (s : OdometryDisplay) (keep : Nat) : OdometryDisplay :=
  { s with keep := keep }

/-- OdometryDisplay::setPositionTolerance (lines 122-127). -/
def setPositionTolerance (s : OdometryDisplay) (tol : ℚ) : OdometryDisplay :=
  { s with position_tolerance := tol }

/-- OdometryDisplay::setAngleTolerance (lines 129-134). -/
def setAngleTolerance (s : OdometryDisplay) (tol : ℚ) : OdometryDisplay :=
  { s with angle_tolerance := tol }

/-- OdometryDisplay::onEnable (lines 151-155): shows the scene node and
subscribes. -/
def onEnable (s : OdometryDisplay) : OdometryDisplay :=
  subscribe { s with visible := true }

/-- OdometryDisplay::onDisable (lines 157-162): unsubscribes, clears,
hides the scene node. -/
def onDisable (s : OdometryDisplay) : OdometryDisplay :=
  { clear (unsubscribe s) with visible := false }

/-- Modelled from the spec: the host Display base class (not part of
this source file) flips the Enabled state and then invokes the onEnable
hook; the spec state machine says Disabled to Enabled subscribes. -/
def enable (s : OdometryDisplay) : OdometryDisplay :=
  onEnable { s with enabled := true }

/-- Modelled from the spec: the host Display base class (not part of
this source file) flips the Enabled state and then invokes the onDisable
hook; the spec state machine says Enabled to Disabled unsubscribes and
clears. -/
def disable (s : OdometryDisplay) : OdometryDisplay :=
  onDisable { s with enabled := false }

/-- OdometryDisplay::fixedFrameChanged (lines 245-249): sets the
tf_filter_ target frame to the fixed frame and clears.  The new fixed
frame itself is stored by the host before this hook runs (modelled from
the spec: the host updates the fixed frame and notifies the display). -/
def fixedFrameChanged (s : OdometryDisplay) (new_fixed_frame : String) :
    OdometryDisplay :=
  clear { s with fixed_frame := new_fixed_frame, target_frame := new_fixed_frame }

/-- OdometryDisplay::reset (lines 269-272): clears. -/
def reset (s : OdometryDisplay) : OdometryDisplay :=
  clear s

/-- The outcome of OdometryDisplay::transformArrow (lines 208-239):
the frame the transform was requested for, the position and orientation
finally written onto the arrow, and the number of errors reported
(ROS_ERROR on line 227). -/
structure TransformResult where
  requestedFrame : String
  arrowPosition : Vec3
  arrowOrientation : Quat
  errors : Nat
deriving DecidableEq

/-- OdometryDisplay::transformArrow (lines 208-239): substitutes the
fixed frame for an empty message frame_id, builds the stamped pose, and
asks the transform service to express it in the fixed frame.  The catch
block on lines 225-228 only logs one error: on failure the pose variable
keeps its untransformed value and execution FALLS THROUGH to the
orientation/position conversion, so the arrow is still positioned and
oriented (from the untransformed pose). -/
def transformArrow (ext : Externals) (s : OdometryDisplay) (msg : Odometry) :
    TransformResult :=
  let frame_id := if msg.frame_id = "" then s.fixed_frame else msg.frame_id
  let pose : TfPose :=
    { frame := frame_id, stamp := msg.stamp
      position := msg.position, orientation := msg.orientation }
  match ext.tf s.fixed_frame pose with
  | some p =>
      { requestedFrame := frame_id
        arrowPosition := ext.robotToOgre p.position
        arrowOrientation := ext.eulerOrient p
        errors := 0 }
  | none =>
      { requestedFrame := frame_id
        arrowPosition := ext.robotToOgre pose.position
        arrowOrientation := ext.eulerOrient pose
        errors := 1 }

/-- The arrow built by the accept path of OdometryDisplay::processMessage
(lines 197-205): created, handed to transformArrow (which sets position
and orientation), colored with the stored color at alpha 1.0, and given
the user-data back-reference. -/
def arrowOf (ext : Externals) (s : OdometryDisplay) (msg : Odometry) : Arrow :=
  { position := (transformArrow ext s msg).arrowPosition
    orientation := (transformArrow ext s msg).arrowOrientation
    color := { r := s.color.r, g := s.color.g, b := s.color.b, a := 1 }
    userDataSet := true }

/-- The accept path of OdometryDisplay::processMessage (lines 197-205):
append the new arrow to the buffer and record the message as
last_used_message_.  Returns the new state and the number of errors
reported by transformArrow. -/
def acceptMessage (ext : Externals) (s : OdometryDisplay) (msg : Odometry) :
    OdometryDisplay × Nat :=
  ({ s with
      arrows := s.arrows ++ [arrowOf ext s msg]
      last_used_message := some msg }, (transformArrow ext s msg).errors)

/-- OdometryDisplay::processMessage (lines 182-206): when a last
accepted message exists and the new message is within both tolerances,
return without touching anything (line 193); otherwise accept. -/
def processMessage (ext : Externals) (s : OdometryDisplay) (msg : Odometry) :
    OdometryDisplay × Nat :=
  match s.last_used_message with
  | some last =>
      if filterDiscard s.position_tolerance s.angle_tolerance last msg then
        (s, 0)
      else
        acceptMessage ext s msg
  | none => acceptMessage ext s msg

/-- The while loop of OdometryDisplay::update (lines 255-259): while
the buffer is longer than keep, delete the front arrow and pop it.
Returns the surviving buffer and the deleted arrows in deletion order. -/
def trimFront : List Arrow → Nat → List Arrow × List Arrow
  | [], _ => ([], [])
  | a :: rest, keep =>
      if rest.length + 1 > keep then
        let p := trimFront rest keep
        (p.1, a :: p.2)
      else
        (a :: rest, [])

/-- OdometryDisplay::update (lines 251-261): when keep_ > 0, trim the
buffer from the front down to keep_ arrows, deleting each removed
arrow; when keep_ == 0 do nothing. -/
def update (s : OdometryDisplay) : OdometryDisplay :=
  if s.keep > 0 then
    let p := trimFront s.arrows s.keep
    { s with arrows := p.1, destroyed := s.destroyed ++ p.2 }
  else
    s

/-- Folds processMessage over a list of messages (one incomingMessage
call per delivered message), discarding the error counts. -/
def processAll (ext : Externals) (s : OdometryDisplay) :
    List Odometry → OdometryDisplay
  | [] => s
  | m :: ms => processAll ext (processMessage ext s m).1 ms

/-- The number of messages of a list that the tolerance filter lets
through, starting from a given last accepted message. -/
def countAccepted (ptol atol : ℚ) : Option Odometry → List Odometry → Nat
  | _, [] => 0
  | some l, m :: ms =>
      if filterDiscard ptol atol l m then
        countAccepted ptol atol (some l) ms
      else
        countAccepted ptol atol (some m) ms + 1
  | none, m :: ms => countAccepted ptol atol (some m) ms + 1

/-- The filter stage of processMessage as a single boolean: true when
the message survives the tolerance filter (no last accepted message, or
outside tolerance) and the accept path runs. -/
def filterPass (s : OdometryDisplay) (msg : Odometry) : Bool :=
  match s.last_used_message with
  | some last => ! filterDiscard s.position_tolerance s.angle_tolerance last msg
  | none => true

/-- A transform service that always succeeds and returns the pose
unchanged, with identity conversion functions: the simplest concrete
environment. -/
def extId : Externals :=
  { tf := fun _ p => some p
    eulerOrient := fun p => p.orientation
    robotToOgre := fun v => v }

/-- A transform service that always throws (models an unavailable
frame or extrapolation error), with identity conversion functions. -/
def extFail : Externals :=
  { tf := fun _ _ => none
    eulerOrient := fun p => p.orientation
    robotToOgre := fun v => v }

/-- The zero vector. -/
def v0 : Vec3 := { x := 0, y := 0, z := 0 }

/-- The identity quaternion. -/
def q0 : Quat := { w := 1, x := 0, y := 0, z := 0 }

/-- A quaternion whose componentwise difference from q0 has squared
length 9/25 (so Euclidean magnitude 3/5). -/
def qB : Quat := { w := 2/5, x := 0, y := 0, z := 0 }

/-- A display state with the constructor defaults of lines 48-54:
color (1, 0.1, 0), keep 100, both tolerances 0.1, empty buffer, no
last accepted message. -/
def baseState : OdometryDisplay :=
  { arrows := []
    last_used_message := none
    color := { r := 1, g := 1/10, b := 0 }
    keep := 100
    position_tolerance := 1/10
    angle_tolerance := 1/10
    topic := "odom"
    fixed_frame := "map"
    target_frame := "map"
    subscribedTo := some "odom"
    enabled := true
    visible := true
    destroyed := [] }

/-- A message at the origin with identity orientation and empty
frame_id. -/
def msgA : Odometry := { frame_id := "", stamp := 0, position := v0, orientation := q0 }

/-- A message at the origin whose orientation differs from msgA by a
quaternion of magnitude 3/5 (squared magnitude 9/25). -/
def msgB : Odometry := { frame_id := "", stamp := 0, position := v0, orientation := qB }

/-- A message with a non-empty frame whose transform will be made to
fail. -/
def msgFail : Odometry :=
  { frame_id := "base_link", stamp := 0
    position := { x := 1, y := 2, z := 3 }, orientation := q0 }

/-- An arrow visual fixture distinguished by its x coordinate. -/
def arrowAt (n : ℚ) : Arrow :=
  { position := { x := n, y := 0, z := 0 }, orientation := q0
    color := { r := 1, g := 1/10, b := 0, a := 1 }, userDataSet := true }

/-- A state with five buffered arrows and capacity three. -/
def stFive : OdometryDisplay :=
  { baseState with
      keep := 3
      arrows := [arrowAt 1, arrowAt 2, arrowAt 3, arrowAt 4, arrowAt 5] }

/-- A state with both tolerances zero and no last accepted message. -/
def stZeroTol : OdometryDisplay :=
  { baseState with position_tolerance := 0, angle_tolerance := 0 }

/-- A state whose last accepted message is msgA. -/
def stLast : OdometryDisplay := { baseState with last_used_message := some msgA }

/-- A state whose last accepted message is msgA, with position
tolerance 1/10 and angle tolerance 1/2. -/
def stC2 : OdometryDisplay :=
  { baseState with last_used_message := some msgA, angle_tolerance := 1/2 }

/-- A state with unbounded capacity (keep = 0). -/
def stKeep0 : OdometryDisplay := { baseState with keep := 0 }

/-- A squared length is nonnegative. -/
lemma sqLen_nonneg (v : Vec3) : 0 ≤ sqLen v := by
  unfold sqLen
  nlinarith [mul_self_nonneg v.x, mul_self_nonneg v.y, mul_self_nonneg v.z]

/-- A quaternion norm (squared length) is nonnegative. -/
lemma qNorm_nonneg (q : Quat) : 0 ≤ qNorm q := by
  unfold qNorm
  nlinarith [mul_self_nonneg q.w, mul_self_nonneg q.x, mul_self_nonneg q.y,
    mul_self_nonneg q.z]

/-- The rational decision procedure lengthLt agrees with the real
comparison of the Euclidean length (the square root of the squared
length) against the tolerance: this is the idealized semantics of the
C++ comparison `length() < tol`. -/
lemma lengthLt_iff (s t : ℚ) :
    lengthLt s t = true ↔ Real.sqrt (s : ℝ) < (t : ℝ) := by
  unfold lengthLt
  rw [Bool.and_eq_true, decide_eq_true_iff, decide_eq_true_iff]
  constructor
  · rintro ⟨ht, hlt⟩
    have ht' : (0 : ℝ) < (t : ℝ) := by exact_mod_cast ht
    rw [Real.sqrt_lt' ht']
    have : (s : ℝ) < (t : ℝ) * (t : ℝ) := by exact_mod_cast hlt
    nlinarith
  · intro h
    have ht' : (0 : ℝ) < (t : ℝ) := lt_of_le_of_lt (Real.sqrt_nonneg _) h
    have ht : 0 < t := by exact_mod_cast ht'
    refine ⟨ht, ?_⟩
    rw [Real.sqrt_lt' ht'] at h
    have : (s : ℝ) < (t : ℝ) * (t : ℝ) := by nlinarith
    exact_mod_cast this

/-- The while loop of update removes exactly the front
`length - keep` arrows (in order) and keeps the rest. -/
lemma trimFront_eq (l : List Arrow) (k : Nat) :
    trimFront l k = (l.drop (l.length - k), l.take (l.length - k)) := by
  induction l with
  | nil => simp [trimFront]
  | cons a rest ih =>
    by_cases h : rest.length + 1 > k
    · have hk : rest.length + 1 - k = (rest.length - k) + 1 := by omega
      simp only [trimFront, if_pos h, ih, List.length_cons, hk,
        List.drop_succ_cons, List.take_succ_cons]
    · have hk : rest.length + 1 - k = 0 := by omega
      simp only [trimFront, if_neg h, List.length_cons, hk,
        List.drop_zero, List.take_zero]

/-- Accepting a message appends exactly one arrow. -/
lemma acceptMessage_arrows (ext : Externals) (s : OdometryDisplay)
    (msg : Odometry) :
    (acceptMessage ext s msg).1.arrows = s.arrows ++ [arrowOf ext s msg] := rfl

/-- Accepting a message records it as the last accepted one. -/
lemma acceptMessage_last (ext : Externals) (s : OdometryDisplay)
    (msg : Odometry) :
    (acceptMessage ext s msg).1.last_used_message = some msg := rfl

/-- Accepting a message leaves the position tolerance alone. -/
lemma acceptMessage_ptol (ext : Externals) (s : OdometryDisplay)
    (msg : Odometry) :
    (acceptMessage ext s msg).1.position_tolerance = s.position_tolerance := rfl

/-- Accepting a message leaves the angle tolerance alone. -/
lemma acceptMessage_atol (ext : Externals) (s : OdometryDisplay)
    (msg : Odometry) :
    (acceptMessage ext s msg).1.angle_tolerance = s.angle_tolerance := rfl

/-- processMessage when no last accepted message exists. -/
lemma processMessage_none (ext : Externals) (s : OdometryDisplay)
    (msg : Odometry) (h : s.last_used_message = none) :
    processMessage ext s msg = acceptMessage ext s msg := by
  simp [processMessage, h]

/-- processMessage when the filter discards the message. -/
lemma processMessage_filtered (ext : Externals) (s : OdometryDisplay)
    (msg last : Odometry) (h : s.last_used_message = some last)
    (hf : filterDiscard s.position_tolerance s.angle_tolerance last msg = true) :
    processMessage ext s msg = (s, 0) := by
  simp [processMessage, h, hf]

/-- processMessage when a last message exists but the filter lets the
new message through. -/
lemma processMessage_passed (ext : Externals) (s : OdometryDisplay)
    (msg last : Odometry) (h : s.last_used_message = some last)
    (hf : filterDiscard s.position_tolerance s.angle_tolerance last msg = false) :
    processMessage ext s msg = acceptMessage ext s msg := by
  simp [processMessage, h, hf]

/-- Along any run of processMessage calls, the buffer grows by exactly
the number of messages the tolerance filter lets through. -/
lemma processAll_arrows_length (ext : Externals) (msgs : List Odometry) :
    ∀ s : OdometryDisplay,
      (processAll ext s msgs).arrows.length =
        s.arrows.length +
          countAccepted s.position_tolerance s.angle_tolerance
            s.last_used_message msgs := by
  induction msgs with
  | nil => intro s; simp [processAll, countAccepted]
  | cons m ms ih =>
    intro s
    rw [processAll]
    cases h : s.last_used_message with
    | none =>
      rw [processMessage_none ext s m h, ih, acceptMessage_arrows,
        acceptMessage_last, acceptMessage_ptol, acceptMessage_atol]
      simp [countAccepted]
      omega
    | some l =>
      by_cases hf : filterDiscard s.position_tolerance s.angle_tolerance l m = true
      · rw [processMessage_filtered ext s m l h hf, ih]
        simp [h, countAccepted, hf]
      · have hf' :
            filterDiscard s.position_tolerance s.angle_tolerance l m = false := by
          simpa using hf
        rw [processMessage_passed ext s m l h hf', ih, acceptMessage_arrows,
          acceptMessage_last, acceptMessage_ptol, acceptMessage_atol]
        simp [countAccepted, hf']
        omega

/-- The discard condition of line 191 in real-number terms: the
Euclidean position distance is below the position tolerance and the
SQUARED magnitude of the componentwise quaternion difference is below
the angle tolerance. -/
lemma filterDiscard_iff (ptol atol : ℚ) (last cur : Odometry) :
    filterDiscard ptol atol last cur = true ↔
      (Real.sqrt ((sqLen (vsub last.position cur.position) : ℚ) : ℝ) <
        ((ptol : ℚ) : ℝ) ∧
       ((qNorm (qsub last.orientation cur.orientation) : ℚ) : ℝ) <
        ((atol : ℚ) : ℝ)) := by
  unfold filterDiscard
  rw [Bool.and_eq_true, lengthLt_iff, decide_eq_true_iff]
  constructor
  · rintro ⟨h1, h2⟩
    exact ⟨h1, by exact_mod_cast h2⟩
  · rintro ⟨h1, h2⟩
    exact ⟨h1, by exact_mod_cast h2⟩

/-- processMessage runs the accept path exactly when the filter stage
lets the message through. -/
lemma processMessage_pass_eq (ext : Externals) (s : OdometryDisplay)
    (msg : Odometry) (h : filterPass s msg = true) :
    processMessage ext s msg = acceptMessage ext s msg := by
  cases hl : s.last_used_message with
  | none => exact processMessage_none ext s msg hl
  | some l =>
    have hf : filterDiscard s.position_tolerance s.angle_tolerance l msg = false := by
      have h' := h
      simp [filterPass, hl] at h'
      simpa using h'
  -- use the passed-through form
    exact processMessage_passed ext s msg l hl hf

/-- C1 (counterexample to the claim as stated): for a message whose
transform fails (the transform service throws), the code reports one
error but does NOT abort: starting from the default state with an empty
buffer, the buffer length changes from 0 to 1 and LastAcceptedPose is
updated to the message, because transformArrow catches the exception,
logs, and falls through to position the arrow from the untransformed
pose. -/
theorem C1_transform_failure_counterexample :
    (processMessage extFail baseState msgFail).2 = 1 ∧
    baseState.arrows.length = 0 ∧
    (processMessage extFail baseState msgFail).1.arrows.length = 1 ∧
    (processMessage extFail baseState msgFail).1.last_used_message = some msgFail :=
  ⟨rfl, rfl, rfl, rfl⟩

/-- C1 (amended): for every message that survives the tolerance filter
and whose transform fails, exactly one error is reported, and processing
is NOT aborted: an arrow (positioned and oriented from the untransformed
pose) is still created and appended, and LastAcceptedPose is updated to
the message; the buffer length grows by one. -/
theorem C1_transform_failure_reports_error_without_aborting
    (ext : Externals) (s : OdometryDisplay) (msg : Odometry)
    (hp : filterPass s msg = true)
    (ht : ext.tf s.fixed_frame
      { frame := if msg.frame_id = "" then s.fixed_frame else msg.frame_id
        stamp := msg.stamp
        position := msg.position
        orientation := msg.orientation } = none) :
    (processMessage ext s msg).2 = 1 ∧
    (processMessage ext s msg).1.arrows = s.arrows ++ [arrowOf ext s msg] ∧
    (processMessage ext s msg).1.arrows.length = s.arrows.length + 1 ∧
    (processMessage ext s msg).1.last_used_message = some msg := by
  rw [processMessage_pass_eq ext s msg hp]
  refine ⟨?_, rfl, by simp [acceptMessage], rfl⟩
  show (transformArrow ext s msg).errors = 1
  simp [transformArrow, ht]

/-- C1 witness: the amended statement at the default state with an
always-failing transform service. -/
theorem C1_transform_failure_witness :
    filterPass baseState msgFail = true ∧
    extFail.tf baseState.fixed_frame
      { frame := if msgFail.frame_id = "" then baseState.fixed_frame
                 else msgFail.frame_id
        stamp := msgFail.stamp
        position := msgFail.position
        orientation := msgFail.orientation } = none ∧
    ((processMessage extFail baseState msgFail).2 = 1 ∧
     (processMessage extFail baseState msgFail).1.arrows =
       baseState.arrows ++ [arrowOf extFail baseState msgFail] ∧
     (processMessage extFail baseState msgFail).1.arrows.length =
       baseState.arrows.length + 1 ∧
     (processMessage extFail baseState msgFail).1.last_used_message =
       some msgFail) :=
  ⟨rfl, rfl,
    C1_transform_failure_reports_error_without_aborting extFail baseState
      msgFail rfl rfl⟩

/-- C2 (counterexample to the claim as stated): with angle tolerance
1/2, a message whose position is unchanged and whose componentwise
quaternion difference from the last accepted message has magnitude 3/5
is FILTERED by the code (buffer and LastAcceptedPose unchanged), even
though 3/5 is not below the angle tolerance — so the claimed
biconditional (filtered iff distance < positionTolerance and magnitude
< angleTolerance) is false: line 191 compares the SQUARED magnitude
(Ogre's Quaternion::normalise() returns Norm(), the squared length),
and 9/25 < 1/2. -/
theorem C2_filter_magnitude_counterexample :
    ¬ ((((processMessage extId stC2 msgB).1.arrows = stC2.arrows ∧
         (processMessage extId stC2 msgB).1.last_used_message =
           stC2.last_used_message)) ↔
       (Real.sqrt ((sqLen (vsub msgA.position msgB.position) : ℚ) : ℝ) <
          ((stC2.position_tolerance : ℚ) : ℝ) ∧
        Real.sqrt ((qNorm (qsub msgA.orientation msgB.orientation) : ℚ) : ℝ) <
          ((stC2.angle_tolerance : ℚ) : ℝ))) := by
  have hf : filterDiscard stC2.position_tolerance stC2.angle_tolerance
      msgA msgB = true := by
    show filterDiscard (1/10) (1/2) msgA msgB = true
    simp only [filterDiscard, lengthLt, sqLen, vsub, qNorm, qsub, msgA, msgB,
      v0, q0, qB, Bool.and_eq_true, decide_eq_true_iff]
    norm_num
  have hm : processMessage extId stC2 msgB = (stC2, 0) :=
    processMessage_filtered extId stC2 msgB msgA rfl hf
  intro hiff
  have hrhs := hiff.mp (by rw [hm]; exact ⟨rfl, rfl⟩)
  have ha : Real.sqrt ((qNorm (qsub msgA.orientation msgB.orientation) : ℚ) : ℝ) <
      ((stC2.angle_tolerance : ℚ) : ℝ) := hrhs.2
  have h1 : ((qNorm (qsub msgA.orientation msgB.orientation) : ℚ) : ℝ) =
      (9/25 : ℝ) := by
    simp only [qNorm, qsub, msgA, msgB, q0, qB]
    norm_num
  have h2 : ((stC2.angle_tolerance : ℚ) : ℝ) = (1/2 : ℝ) := by
    show (((1:ℚ)/2 : ℚ) : ℝ) = (1/2 : ℝ)
    norm_num
  rw [h1, h2, show (9/25 : ℝ) = (3/5 : ℝ) ^ 2 by norm_num,
    Real.sqrt_sq (by norm_num : (0:ℝ) ≤ (3/5 : ℝ))] at ha
  norm_num at ha

/-- C2 (amended): for a pair of consecutive messages processed while a
LastAcceptedPose exists, with Euclidean position delta d and SQUARED
componentwise-quaternion-difference magnitude a2 (the value returned by
the renderer's quaternion normalise), the second message is filtered
(buffer and LastAcceptedPose unchanged) iff d < positionTolerance and
a2 < angleTolerance; otherwise the arrow is appended and
LastAcceptedPose becomes the new message. -/
theorem C2_filter_iff_within_tolerances (ext : Externals)
    (s : OdometryDisplay) (msg last : Odometry)
    (h : s.last_used_message = some last) :
    (((processMessage ext s msg).1.arrows = s.arrows ∧
      (processMessage ext s msg).1.last_used_message = s.last_used_message) ↔
     (Real.sqrt ((sqLen (vsub last.position msg.position) : ℚ) : ℝ) <
        ((s.position_tolerance : ℚ) : ℝ) ∧
      ((qNorm (qsub last.orientation msg.orientation) : ℚ) : ℝ) <
        ((s.angle_tolerance : ℚ) : ℝ))) ∧
    (¬ (Real.sqrt ((sqLen (vsub last.position msg.position) : ℚ) : ℝ) <
          ((s.position_tolerance : ℚ) : ℝ) ∧
        ((qNorm (qsub last.orientation msg.orientation) : ℚ) : ℝ) <
          ((s.angle_tolerance : ℚ) : ℝ)) →
      (processMessage ext s msg).1.arrows = s.arrows ++ [arrowOf ext s msg] ∧
      (processMessage ext s msg).1.last_used_message = some msg) := by
  by_cases hf : filterDiscard s.position_tolerance s.angle_tolerance last msg = true
  · have hm := processMessage_filtered ext s msg last h hf
    have hcond := (filterDiscard_iff s.position_tolerance s.angle_tolerance
      last msg).mp hf
    constructor
    · rw [hm]
      exact iff_of_true ⟨rfl, rfl⟩ hcond
    · intro hn
      exact absurd hcond hn
  · have hf' : filterDiscard s.position_tolerance s.angle_tolerance last msg =
        false := by simpa using hf
    have hm := processMessage_passed ext s msg last h hf'
    have hcond : ¬ (Real.sqrt ((sqLen (vsub last.position msg.position) : ℚ) : ℝ) <
        ((s.position_tolerance : ℚ) : ℝ) ∧
        ((qNorm (qsub last.orientation msg.orientation) : ℚ) : ℝ) <
        ((s.angle_tolerance : ℚ) : ℝ)) := by
      rw [← filterDiscard_iff]
      simp [hf']
    constructor
    · rw [hm]
      refine iff_of_false ?_ hcond
      rintro ⟨h1, -⟩
      have := congrArg List.length h1
      simp [acceptMessage] at this
    · intro _
      rw [hm]
      exact ⟨rfl, rfl⟩

/-- C2 witness: the amended statement with the default tolerances, a
last accepted message, and an identical incoming message. -/
theorem C2_filter_iff_witness :
    stLast.last_used_message = some msgA ∧
    ((((processMessage extId stLast msgA).1.arrows = stLast.arrows ∧
       (processMessage extId stLast msgA).1.last_used_message =
         stLast.last_used_message) ↔
      (Real.sqrt ((sqLen (vsub msgA.position msgA.position) : ℚ) : ℝ) <
         ((stLast.position_tolerance : ℚ) : ℝ) ∧
       ((qNorm (qsub msgA.orientation msgA.orientation) : ℚ) : ℝ) <
         ((stLast.angle_tolerance : ℚ) : ℝ))) ∧
     (¬ (Real.sqrt ((sqLen (vsub msgA.position msgA.position) : ℚ) : ℝ) <
           ((stLast.position_tolerance : ℚ) : ℝ) ∧
         ((qNorm (qsub msgA.orientation msgA.orientation) : ℚ) : ℝ) <
           ((stLast.angle_tolerance : ℚ) : ℝ)) →
       (processMessage extId stLast msgA).1.arrows =
         stLast.arrows ++ [arrowOf extId stLast msgA] ∧
       (processMessage extId stLast msgA).1.last_used_message = some msgA)) :=
  ⟨rfl, C2_filter_iff_within_tolerances extId stLast msgA msgA rfl⟩

/-- C3: for every buffer state with keep > 0, update removes exactly
the oldest (front) arrows, destroying each in removal order, so that
the surviving buffer is the suffix of the keep most recently appended
arrows in arrival order and its length is at most keep. -/
theorem C3_update_trims_oldest_to_keep (s : OdometryDisplay)
    (h : 0 < s.keep) :
    (update s).arrows = s.arrows.drop (s.arrows.length - s.keep) ∧
    (update s).arrows.length ≤ s.keep ∧
    (update s).destroyed =
      s.destroyed ++ s.arrows.take (s.arrows.length - s.keep) := by
  have h1 : update s =
      { s with
          arrows := s.arrows.drop (s.arrows.length - s.keep)
          destroyed := s.destroyed ++
            s.arrows.take (s.arrows.length - s.keep) } := by
    unfold update
    rw [if_pos h, trimFront_eq]
  rw [h1]
  refine ⟨rfl, ?_, rfl⟩
  simp only [List.length_drop]
  omega

/-- C3 witness: with keep = 3 and five buffered arrows, update keeps the
three most recent arrows and destroys the two oldest. -/
theorem C3_update_trims_witness :
    0 < stFive.keep ∧
    ((update stFive).arrows =
       stFive.arrows.drop (stFive.arrows.length - stFive.keep) ∧
     (update stFive).arrows.length ≤ stFive.keep ∧
     (update stFive).destroyed =
       stFive.destroyed ++
         stFive.arrows.take (stFive.arrows.length - stFive.keep)) :=
  ⟨by decide, C3_update_trims_oldest_to_keep stFive (by decide)⟩

/-- C4 (counterexample to the claim as stated): with keep = 0, feeding
one message whose transform fails from a freshly cleared state leaves
the buffer at length 1, while the claim's count of accepted messages
(which excludes transform-failed messages) is 0 — one error is reported
for the message, yet its arrow is still appended. -/
theorem C4_keep0_count_counterexample :
    stKeep0.keep = 0 ∧
    (processMessage extFail (clear stKeep0) msgFail).2 = 1 ∧
    (processAll extFail (clear stKeep0) [msgFail]).arrows.length = 1 :=
  ⟨rfl, rfl, rfl⟩

/-- C4 (amended): when keep = 0, update (tick) removes nothing, and
after processing any message sequence from a freshly cleared state the
buffer length equals the number of messages NOT discarded by the
tolerance filter — transform-failed messages are still appended and
counted. -/
theorem C4_keep0_buffer_counts_unfiltered (ext : Externals)
    (s : OdometryDisplay) (msgs : List Odometry) (h : s.keep = 0) :
    update s = s ∧
    (processAll ext (clear s) msgs).arrows.length =
      countAccepted s.position_tolerance s.angle_tolerance none msgs := by
  constructor
  · simp [update, h]
  · rw [processAll_arrows_length]
    simp [clear]

/-- C4 witness: keep = 0, two identical messages: the second is
filtered, so the buffer length is the count of unfiltered messages. -/
theorem C4_keep0_witness :
    stKeep0.keep = 0 ∧
    (update stKeep0 = stKeep0 ∧
     (processAll extId (clear stKeep0) [msgA, msgA]).arrows.length =
       countAccepted stKeep0.position_tolerance stKeep0.angle_tolerance
         none [msgA, msgA]) :=
  ⟨rfl, C4_keep0_buffer_counts_unfiltered extId stKeep0 [msgA, msgA] rfl⟩

/-- C5: setColor stores the new color and recolors every arrow
currently in the buffer to that color with full opacity (alpha = 1),
leaving the buffer length, order, positions and orientations
unchanged. -/
theorem C5_setColor_recolors_buffer (s : OdometryDisplay) (c : Color) :
    (setColor s c).color = c ∧
    (setColor s c).arrows =
      s.arrows.map (fun arrow =>
        { arrow with color := { r := c.r, g := c.g, b := c.b, a := 1 } }) ∧
    (setColor s c).arrows.length = s.arrows.length ∧
    (setColor s c).arrows.map Arrow.position =
      s.arrows.map Arrow.position ∧
    (setColor s c).arrows.map Arrow.orientation =
      s.arrows.map Arrow.orientation ∧
    (setColor s c).arrows.map Arrow.color =
      s.arrows.map (fun _ => ({ r := c.r, g := c.g, b := c.b, a := 1 } : ColorA)) := by
  refine ⟨rfl, rfl, ?_, ?_, ?_, ?_⟩
  · simp [setColor]
  · simp [setColor, List.map_map, Function.comp]
  · simp [setColor, List.map_map, Function.comp]
  · simp only [setColor]
    induction s.arrows with
    | nil => rfl
    | cons a t ih => simp [ih]

/-- C6: setKeep stores the new capacity and does not touch the buffer:
no arrow is removed or destroyed, and the last accepted message is
untouched (any trimming happens only at the next update). -/
theorem C6_setKeep_stores_without_trimming (s : OdometryDisplay) (n : Nat) :
    (setKeep s n).keep = n ∧
    (setKeep s n).arrows = s.arrows ∧
    (setKeep s n).destroyed = s.destroyed ∧
    (setKeep s n).last_used_message = s.last_used_message :=
  ⟨rfl, rfl, rfl, rfl⟩

/-- C7: disable followed by enable leaves the buffer and
LastAcceptedPose exactly as a single clear does — empty buffer with the
same arrows destroyed, no last accepted message — and the display is
subscribed to the configured topic. -/
theorem C7_disable_enable_equals_clear (s : OdometryDisplay) :
    (enable (disable s)).arrows = [] ∧
    (enable (disable s)).last_used_message = none ∧
    (enable (disable s)).subscribedTo = some (enable (disable s)).topic ∧
    (enable (disable s)).arrows = (clear s).arrows ∧
    (enable (disable s)).last_used_message = (clear s).last_used_message ∧
    (enable (disable s)).destroyed = (clear s).destroyed := by
  refine ⟨?_, ?_, ?_, ?_, ?_, ?_⟩ <;>
    simp [enable, disable, onEnable, onDisable, subscribe, unsubscribe, clear]

/-- C8: fixedFrameChanged empties the buffer (destroying every buffered
arrow), releases the last accepted message, and updates the transform
target frame to the new fixed frame. -/
theorem C8_fixedFrameChanged_clears (s : OdometryDisplay) (f : String) :
    (fixedFrameChanged s f).arrows = [] ∧
    (fixedFrameChanged s f).last_used_message = none ∧
    (fixedFrameChanged s f).destroyed = s.destroyed ++ s.arrows ∧
    (fixedFrameChanged s f).target_frame = f ∧
    (fixedFrameChanged s f).fixed_frame = f :=
  ⟨rfl, rfl, rfl, rfl, rfl⟩

/-- C9: transformArrow requests the transform with the message's
embedded frame when that is non-empty, and silently substitutes the
configured fixed frame when it is empty; in both cases the error count
is zero exactly when the transform service succeeds on that request, so
the empty frame itself never causes an error report. -/
theorem C9_empty_frame_substituted_silently (ext : Externals)
    (s : OdometryDisplay) (msg : Odometry) :
    (transformArrow ext s msg).requestedFrame =
      (if msg.frame_id = "" then s.fixed_frame else msg.frame_id) ∧
    ((transformArrow ext s msg).errors = 0 ↔
      (ext.tf s.fixed_frame
        { frame := if msg.frame_id = "" then s.fixed_frame else msg.frame_id
          stamp := msg.stamp
          position := msg.position
          orientation := msg.orientation }).isSome = true) := by
  cases h : ext.tf s.fixed_frame
      { frame := if msg.frame_id = "" then s.fixed_frame else msg.frame_id
        stamp := msg.stamp
        position := msg.position
        orientation := msg.orientation } with
  | none => simp [transformArrow, h]
  | some p => simp [transformArrow, h]

/-- C10: a message arriving while no LastAcceptedPose exists skips the
tolerance filter and is always accepted — the arrow is appended and
LastAcceptedPose becomes the message — whatever the configured
tolerance values are (including zero). -/
theorem C10_first_message_always_accepted (ext : Externals)
    (s : OdometryDisplay) (msg : Odometry)
    (h : s.last_used_message = none) :
    (processMessage ext s msg).1.arrows = s.arrows ++ [arrowOf ext s msg] ∧
    (processMessage ext s msg).1.arrows.length = s.arrows.length + 1 ∧
    (processMessage ext s msg).1.last_used_message = some msg := by
  rw [processMessage_none ext s msg h]
  exact ⟨rfl, by simp [acceptMessage], rfl⟩

/-- C10 witness: a state with both tolerances zero and no last accepted
message still accepts the incoming message. -/
theorem C10_first_message_witness :
    stZeroTol.last_used_message = none ∧
    ((processMessage extId stZeroTol msgA).1.arrows =
       stZeroTol.arrows ++ [arrowOf extId stZeroTol msgA] ∧
     (processMessage extId stZeroTol msgA).1.arrows.length =
       stZeroTol.arrows.length + 1 ∧
     (processMessage extId stZeroTol msgA).1.last_used_message = some msgA) :=
  ⟨rfl, C10_first_message_always_accepted extId stZeroTol msgA rfl⟩

end RvizOdom
